import Mathlib

/-!
Verification of the serial-communication CO₂ logger core.

The definitions below are a shallow embedding of the acquisition/logging
core found in `serial_communicaiton_GUI_simple.py`, `serial_communicaiton_GUI.py`,
`serial_communicaiton_write2file.py` and `serial_communicaiton_2sensors2file.py`:

* a fine-grained event model of the lock discipline used by
  `DualCO2Logger._reader` / `DualCO2Logger._logger` (acquire / release /
  write / read events over the shared `self.data` table guarded by
  `self.data_lock`);
* the reader publish step (`line.strip()` + non-empty guard, then
  `self.data[name] = line`);
* the logger row construction (`[timestamp] + [self.data[k] for k in ports]`,
  `None` rendered as an empty CSV field);
* the session controller (`start` / `stop` on `DualCO2Logger`, plus the
  GUI `_toggle` guard);
* the activation sequences (`_activate_sensor` in the GUI variants and
  `activate_sensor` in the write2file variant);
* the GUI logger tick including its `row_callback` float conversion;
* the reader loop exit / channel close behaviour;
* UTF-8 decoding with Python's `errors="ignore"` handler.
-/

namespace SerialComm

/-! ### Lock / event trace model (from `DualCO2Logger._reader` and `._logger`).

A trace is a list of primitive events. `wr t k v` is a reader thread `t`
executing `self.data[k] = v` inside `with self.data_lock`; `rd t k` is the
logger thread reading `self.data[k]` inside its `with self.data_lock` block;
`acq` / `rel` are lock acquisition and release. -/

/-- A primitive event of the threaded core: lock acquire/release by thread
`t`, a table write `wr t k v` (reader publishing a line), or a table read
`rd t k` (logger snapshotting a key). -/
inductive Ev where
  | acq (t : Nat)
  | rel (t : Nat)
  | wr (t : Nat) (k : String) (v : String)
  | rd (t : Nat) (k : String)
deriving DecidableEq, Repr

/-- The thread issuing an event. -/
def evThread : Ev → Nat
  | .acq t => t
  | .rel t => t
  | .wr t _ _ => t
  | .rd t _ => t

/-- Whether an event is a table write (a `set`). -/
def isWr : Ev → Bool
  | .wr _ _ _ => true
  | _ => false

/-- Whether an event is a table read. -/
def isRd : Ev → Bool
  | .rd _ _ => true
  | _ => false

/-- Mutex semantics: which events are enabled given the current holder.
An acquire needs the lock free; release, write and read need the issuing
thread to hold the lock (the Python code touches `self.data` only inside
`with self.data_lock`). -/
def lockOk : Option Nat → Ev → Bool
  | none, .acq _ => true
  | some u, .rel t => u == t
  | some u, .wr t _ _ => u == t
  | some u, .rd t _ => u == t
  | _, _ => false

/-- Lock holder after one event. -/
def lockAfter : Option Nat → Ev → Option Nat
  | _, .acq t => some t
  | _, .rel _ => none
  | h, _ => h

/-- Lock holder after a whole trace. -/
def holderAfter (h : Option Nat) (l : List Ev) : Option Nat :=
  l.foldl lockAfter h

/-- A trace is well-locked from holder state `h` when every event is
enabled by the mutex at its position.  Every schedule the real mutex can
produce is well-locked: a blocked `acquire` simply does not occur yet. -/
def wellLockedFrom (h : Option Nat) : List Ev → Bool
  | [] => true
  | e :: es => lockOk h e && wellLockedFrom (lockAfter h e) es

/-- The shared reading table (`self.data`) after a trace, starting from `d`.
Only writes change it; the last write to a key wins. -/
def dataAfter (d : String → Option String) : List Ev → (String → Option String)
  | [] => d
  | .wr _ k v :: es => dataAfter (fun k2 => if k2 = k then some v else d k2) es
  | _ :: es => dataAfter d es

/-- The most recently set value for key `k` over a trace (scanning the
writes in order, keeping the last one), starting from `d k`. -/
def mostRecentSet (d : String → Option String) (k : String) (l : List Ev) : Option String :=
  l.foldl
    (fun acc e =>
      match e with
      | Ev.wr _ k2 v => if k2 = k then some v else acc
      | _ => acc)
    (d k)

/-! ### Reader publish step and logger row (from `DualCO2Logger._reader` and
`._logger` in `serial_communicaiton_GUI_simple.py`). -/

/-- A character Python's `str.strip()` removes (ASCII whitespace). -/
def pyWhitespace (c : Char) : Bool :=
  c = ' ' || c = '\t' || c = '\n' || c = '\r' || c = '\x0b' || c = '\x0c'

/-- Python's `str.strip()` with no argument: drop leading and trailing
whitespace characters. -/
def pyStrip (s : String) : String :=
  ⟨((s.data.dropWhile pyWhitespace).reverse.dropWhile pyWhitespace).reverse⟩

/-- One reader-loop body iteration on a decoded line:
`line = raw.strip(); if line: self.data[name] = line`. -/
def readerPublish (d : String → Option String) (name rawLine : String) :
    String → Option String :=
  let line := pyStrip rawLine
  if line = "" then d else fun k => if k = name then some line else d k

/-- A sequence of reader publishes applied in order. -/
def runPublishes (d : String → Option String) (steps : List (String × String)) :
    String → Option String :=
  steps.foldl (fun acc p => readerPublish acc p.1 p.2) d

/-- The fresh reading table built in `DualCO2Logger.__init__`:
`self.data = \x7bname: None for name in ports\x7d` — every slot is `None`. -/
def initData : String → Option String := fun _ => none

/-- Modelled from the spec: the CSV writer renders a missing (`None`) reading
as an empty field (`csv.writer` is an external library; the spec's log-sink
contract says "an empty field if not yet received"). -/
def csvRender (o : Option String) : String := o.getD ""

/-- One logger row from `DualCO2Logger._logger`:
`[timestamp] + [self.data[k] for k in self.ports]`, each value rendered as a
CSV field. -/
def loggerRow (ts : String) (d : String → Option String) (keys : List String) :
    List String :=
  ts :: keys.map (fun k => csvRender (d k))

/-! ### Session controller (from `DualCO2Logger.__init__`, `.start`, `.stop`
and `CO2App._toggle` in `serial_communicaiton_GUI_simple.py`). -/

/-- A task launched by `start`: the logger thread or one reader thread per
port name. -/
inductive TaskKind where
  | logger
  | reader (name : String)
deriving DecidableEq, Repr

/-- Observable controller state: the shared stop event, the controller's
`self.threads` list, the shared reading table `self.data`, and the set of
launched tasks that are still running (`alive`). -/
structure Ctrl where
  stopSet : Bool
  threads : List TaskKind
  data : String → Option String
  alive : List TaskKind

/-- State after `DualCO2Logger.__init__(ports)`: stop event unset, no
threads, every table slot `None`. -/
def initCtrl : Ctrl := ⟨false, [], initData, []⟩

/-- The tasks one `start` call launches: the logger first, then one reader
per configured port. -/
def sessionTasks (ports : List String) : List TaskKind :=
  TaskKind.logger :: ports.map TaskKind.reader

/-- `DualCO2Logger.start`: clears the stop event, launches a full set of
tasks and replaces `self.threads` with the new handles.  There is no check
that a session is already running, no error path, and the reading table is
not recreated; previously launched tasks keep running (they are daemon
threads observing the now-cleared stop event). -/
def start (ports : List String) (s : Ctrl) : Ctrl :=
  { s with
    stopSet := false
    threads := sessionTasks ports
    alive := s.alive ++ sessionTasks ports }

/-- `DualCO2Logger.stop`: sets the shared stop event (all running tasks
observe it and exit), joins with a bounded timeout, and clears
`self.threads`.  The reading table is untouched. -/
def stop (s : Ctrl) : Ctrl :=
  { s with stopSet := true, threads := [], alive := [] }

/-- A reader publishing a line into the controller's shared table. -/
def publish (s : Ctrl) (name rawLine : String) : Ctrl :=
  { s with data := readerPublish s.data name rawLine }

/-- `CO2App._toggle`: the GUI's start/stop button.  When the UI flag says a
session is running, it calls `stop`; otherwise it calls `start`.  Returns
the new UI flag and controller state. -/
def toggle (ports : List String) (running : Bool) (s : Ctrl) : Bool × Ctrl :=
  if running then (false, stop s) else (true, start ports s)

/-! ### Activation sequences (from `DualCO2Logger._activate_sensor` in the
GUI variants and `activate_sensor` in `serial_communicaiton_write2file.py`). -/

/-- An action on the serial channel: writing one byte, sleeping, or reading
back a response. -/
inductive ChanAct where
  | write (b : Nat)
  | sleep (ms : Nat)
  | readBack
deriving DecidableEq, Repr

/-- `DualCO2Logger._activate_sensor`: thirty times `ser.write(b"Z")` then
`time.sleep(0.1)` — byte 90 is ASCII `Z`. -/
def activateSensorGUI : List ChanAct :=
  (List.replicate 30 [ChanAct.write 90, ChanAct.sleep 100]).flatten

/-- `activate_sensor` in `serial_communicaiton_write2file.py`: the same
thirty spaced wake bytes, followed by `ser.write(b'\n')` — byte 10. -/
def activateSensorW2F : List ChanAct :=
  (List.replicate 30 [ChanAct.write 90, ChanAct.sleep 100]).flatten
    ++ [ChanAct.write 10]

/-- The bytes a channel-action trace writes, in order. -/
def writesOf (l : List ChanAct) : List Nat :=
  l.filterMap fun a =>
    match a with
    | ChanAct.write b => some b
    | _ => none

/-- Whether a trace performs no response read at all. -/
def noReadsOn (l : List ChanAct) : Bool :=
  l.all fun a =>
    match a with
    | ChanAct.readBack => false
    | _ => true

/-- Whether every write in the trace is immediately followed by a sleep of
`ms` milliseconds. -/
def writesSpaced (ms : Nat) : List ChanAct → Bool
  | [] => true
  | ChanAct.write _ :: rest =>
      match rest with
      | ChanAct.sleep m :: _ => (m == ms) && writesSpaced ms rest
      | _ => false
  | _ :: rest => writesSpaced ms rest

/-! ### GUI logger tick with the row callback (from `DualCO2Logger._logger`
in `serial_communicaiton_GUI.py`) and the write2file log loop. -/

/-- Python truthiness of an optional string: `None` and `""` are falsy. -/
def pyTruthy : Option String → Bool
  | none => false
  | some s => !s.isEmpty

/-- Value of a digit list read in base ten. -/
def charsVal (cs : List Char) : Nat :=
  cs.foldl (fun a c => 10 * a + (c.toNat - 48)) 0

/-- Whether every character is a decimal digit. -/
def allDigits (cs : List Char) : Bool := cs.all Char.isDigit

/-- Unsigned decimal part of a float literal: digits with an optional
decimal point (`"412"`, `"412.5"`, `"412."`, `".5"`). -/
def parseUnsigned (cs : List Char) : Option ℚ :=
  match cs.splitOn '.' with
  | [ip] =>
      if ip ≠ [] && allDigits ip then some (charsVal ip : ℚ) else none
  | [ip, fp] =>
      if (ip ≠ [] || fp ≠ []) && allDigits ip && allDigits fp then
        some ((charsVal ip : ℚ) + (charsVal fp : ℚ) / (10 : ℚ) ^ fp.length)
      else none
  | _ => none

/-- Modelled from the spec: Python's builtin `float()` applied to a raw
sensor value by a numeric consumer ("a raw value that cannot be parsed as a
number ... ValueFormatError").  The builtin is external to the repository;
this models the plain decimal subset (optional surrounding whitespace,
optional sign, digits with an optional decimal point); any other text fails
to parse. -/
def pyFloat? (s : String) : Option ℚ :=
  match (pyStrip s).toList with
  | [] => none
  | c :: rest =>
      if c = '+' then parseUnsigned rest
      else if c = '-' then (parseUnsigned rest).map Neg.neg
      else parseUnsigned (c :: rest)

/-- Observable outcome of one `_logger` loop iteration in
`serial_communicaiton_GUI.py`: the CSV fields written after the timestamp,
the arguments the row callback was invoked with (if any), and whether a
ValueFormatError escaped the iteration. -/
structure TickResult where
  row : List String
  callbackArgs : Option (ℚ × ℚ)
  raised : Bool
deriving DecidableEq, Repr

/-- One `_logger` iteration of `serial_communicaiton_GUI.py`: the row
`[timestamp, inlet, outlet]` is written and flushed verbatim (`None` as an
empty field); then, if a row callback is set and both values are truthy, the
core calls `self.row_callback(timestamp, float(inlet), float(outlet))` —
a value that does not parse as a float raises out of the logger thread. -/
def loggerTickGUI (hasCallback : Bool) (inlet outlet : Option String) :
    TickResult :=
  let row := [inlet.getD "", outlet.getD ""]
  if hasCallback && pyTruthy inlet && pyTruthy outlet then
    match pyFloat? (inlet.getD ""), pyFloat? (outlet.getD "") with
    | some x, some y => ⟨row, some (x, y), false⟩
    | _, _ => ⟨row, none, true⟩
  else ⟨row, none, false⟩

/-- The rows `read_sensor_and_log` in `serial_communicaiton_write2file.py`
writes for a list of decoded reads: each non-empty stripped line becomes the
row `[timestamp, line]`, passed through verbatim with no parsing. -/
def w2fRows (ts : String) (reads : List String) : List (List String) :=
  reads.filterMap fun raw =>
    let line := pyStrip raw
    if line = "" then none else some [ts, line]

/-! ### Reader loop exit and channel close (from `DualCO2Logger._reader` in
`serial_communicaiton_GUI_simple.py`). -/

/-- Result of one `ser.readline()` call: a decoded line, or a
`SerialException` from the transport. -/
inductive ReadRes where
  | line (s : String)
  | err
deriving DecidableEq, Repr

/-- How a reader loop run ended: still looping when the schedule ran out,
exited because the stop event was observed, or terminated by a transport
error. -/
inductive ExitKind where
  | running
  | stopExit
  | errExit
deriving DecidableEq, BEq, Repr

/-- Observable outcome of a reader loop run: final table, how the loop
ended, and whether `ser.close()` ran. -/
structure ReaderOutcome where
  table : String → Option String
  exitKind : ExitKind
  closedChan : Bool

/-- The `_reader` loop of `serial_communicaiton_GUI_simple.py` after the
channel is open.  Each iteration first checks `self.stop_event.is_set()`;
on stop the loop falls through to `ser.close()`.  A `readline` that raises
propagates the exception out of `_reader` — there is no try/finally, so
`ser.close()` never runs on that path.  (The `sensor_reader` variant in
`serial_communicaiton_2sensors2file.py` breaks out of its loop on
`SerialException` and likewise returns without closing.) -/
def readerLoopGUI (name : String) :
    List (Bool × ReadRes) → (String → Option String) → ReaderOutcome
  | [], d => ⟨d, ExitKind.running, false⟩
  | (stopFlag, r) :: rest, d =>
      if stopFlag then ⟨d, ExitKind.stopExit, true⟩
      else
        match r with
        | ReadRes.err => ⟨d, ExitKind.errExit, false⟩
        | ReadRes.line s => readerLoopGUI name rest (readerPublish d name s)

/-! ### UTF-8 decoding with Python's `errors="ignore"` handler (from
`.decode("utf-8", errors="ignore")` in every reader loop). -/

/-- Whether a byte is a UTF-8 continuation byte. -/
def isCont (b : Nat) : Bool := 0x80 ≤ b && b ≤ 0xBF

/-- Lower bound for the first continuation byte of a three-byte sequence
(`0xE0` forbids overlong encodings). -/
def cont3lo (b : Nat) : Nat := if b == 0xE0 then 0xA0 else 0x80

/-- Upper bound for the first continuation byte of a three-byte sequence
(`0xED` forbids surrogates). -/
def cont3hi (b : Nat) : Nat := if b == 0xED then 0x9F else 0xBF

/-- Lower bound for the first continuation byte of a four-byte sequence. -/
def cont4lo (b : Nat) : Nat := if b == 0xF0 then 0x90 else 0x80

/-- Upper bound for the first continuation byte of a four-byte sequence. -/
def cont4hi (b : Nat) : Nat := if b == 0xF4 then 0x8F else 0xBF

/-- Whether an optional byte is a continuation byte within `lo ≤ c ≤ hi`. -/
def contOk (lo hi : Nat) : Option Nat → Bool
  | some c => lo ≤ c && c ≤ hi
  | none => false

/-- UTF-8 decoding of a byte list to code points with the `ignore` error
handler: a well-formed sequence is decoded; an ill-formed or truncated
sequence is dropped (the offending bytes are skipped and decoding resumes)
— nothing is ever inserted in its place and decoding never fails. -/
def utf8DecodeIgnore : List Nat → List Nat
  | [] => []
  | b :: rest =>
    if b < 0x80 then b :: utf8DecodeIgnore rest
    else if 0xC2 ≤ b && b ≤ 0xDF then
      if contOk 0x80 0xBF rest.head? then
        ((b - 0xC0) * 64 + (rest.headD 0 - 0x80)) :: utf8DecodeIgnore (rest.drop 1)
      else if rest.isEmpty then []
      else utf8DecodeIgnore rest
    else if 0xE0 ≤ b && b ≤ 0xEF then
      if contOk (cont3lo b) (cont3hi b) rest.head? then
        if contOk 0x80 0xBF (rest.drop 1).head? then
          ((b - 0xE0) * 4096 + (rest.headD 0 - 0x80) * 64
              + ((rest.drop 1).headD 0 - 0x80))
            :: utf8DecodeIgnore (rest.drop 2)
        else if (rest.drop 1).isEmpty then []
        else utf8DecodeIgnore (rest.drop 1)
      else if rest.isEmpty then []
      else utf8DecodeIgnore rest
    else if 0xF0 ≤ b && b ≤ 0xF4 then
      if contOk (cont4lo b) (cont4hi b) rest.head? then
        if contOk 0x80 0xBF (rest.drop 1).head? then
          if contOk 0x80 0xBF (rest.drop 2).head? then
            ((b - 0xF0) * 262144 + (rest.headD 0 - 0x80) * 4096
                + ((rest.drop 1).headD 0 - 0x80) * 64
                + ((rest.drop 2).headD 0 - 0x80))
              :: utf8DecodeIgnore (rest.drop 3)
          else if (rest.drop 2).isEmpty then []
          else utf8DecodeIgnore (rest.drop 2)
        else if (rest.drop 1).isEmpty then []
        else utf8DecodeIgnore (rest.drop 1)
      else if rest.isEmpty then []
      else utf8DecodeIgnore rest
    else utf8DecodeIgnore rest
termination_by l => l.length
decreasing_by
  all_goals simp_wf
  all_goals omega

end SerialComm

namespace SerialComm

theorem wellLockedFrom_append (xs : List Ev) :
    ∀ (h : Option Nat) (ys : List Ev),
      wellLockedFrom h (xs ++ ys)
        = (wellLockedFrom h xs && wellLockedFrom (holderAfter h xs) ys) := by
  induction xs with
  | nil => intro h ys; simp [wellLockedFrom, holderAfter]
  | cons e es ih =>
      intro h ys
      simp [wellLockedFrom, holderAfter, List.foldl_cons, ih, Bool.and_assoc]

theorem holderAfter_cons (h : Option Nat) (e : Ev) (l : List Ev) :
    holderAfter h (e :: l) = holderAfter (lockAfter h e) l := by
  simp [holderAfter, List.foldl_cons]

/-- Inside a critical section of thread `t` (well-locked continuation from
holder `some t`, before `t` releases), every event belongs to `t` and is a
table access, never an acquire or a release. -/
theorem critical_section_events (t : Nat) :
    ∀ (mid : List Ev), wellLockedFrom (some t) mid = true →
      (∀ e ∈ mid, e ≠ Ev.rel t) →
      ∀ e ∈ mid, evThread e = t ∧ (isWr e || isRd e) = true := by
  intro mid
  induction mid with
  | nil => intro _ _ e he; cases he
  | cons e es ih =>
      intro hw hrel e2 he2
      rw [wellLockedFrom, Bool.and_eq_true] at hw
      obtain ⟨hok, hw2⟩ := hw
      cases e with
      | acq u => simp [lockOk] at hok
      | rel u =>
          exfalso
          rw [lockOk] at hok
          have hu : t = u := by simpa using hok
          exact hrel _ (List.mem_cons_self _ _) (by simp [hu])
      | wr u k v =>
          rw [lockOk] at hok
          have hu : t = u := by simpa using hok
          rcases List.mem_cons.mp he2 with h | h
          · subst h; simp [evThread, isWr, hu.symm]
          · exact ih hw2 (fun e3 he3 => hrel e3 (List.mem_cons_of_mem _ he3)) e2 h
      | rd u k =>
          rw [lockOk] at hok
          have hu : t = u := by simpa using hok
          rcases List.mem_cons.mp he2 with h | h
          · subst h; simp [evThread, isRd, hu.symm]
          · exact ih hw2 (fun e3 he3 => hrel e3 (List.mem_cons_of_mem _ he3)) e2 h

theorem dataAfter_append (xs : List Ev) :
    ∀ (d : String → Option String) (ys : List Ev),
      dataAfter d (xs ++ ys) = dataAfter (dataAfter d xs) ys := by
  induction xs with
  | nil => intro d ys; rfl
  | cons e es ih =>
      intro d ys
      cases e <;> simp [dataAfter, ih]

theorem dataAfter_no_wr :
    ∀ (l : List Ev) (d : String → Option String),
      (∀ e ∈ l, isWr e = false) → dataAfter d l = d := by
  intro l
  induction l with
  | nil => intro d _; rfl
  | cons e es ih =>
      intro d hl
      cases e with
      | wr u k v => exact absurd (hl _ (List.mem_cons_self _ _)) (by simp [isWr])
      | acq u => exact ih d (fun e3 he3 => hl e3 (List.mem_cons_of_mem _ he3))
      | rel u => exact ih d (fun e3 he3 => hl e3 (List.mem_cons_of_mem _ he3))
      | rd u k => exact ih d (fun e3 he3 => hl e3 (List.mem_cons_of_mem _ he3))

theorem dataAfter_eq_mostRecentSet :
    ∀ (l : List Ev) (d : String → Option String) (k : String),
      dataAfter d l k = mostRecentSet d k l := by
  intro l
  induction l with
  | nil => intro d k; rfl
  | cons e es ih =>
      intro d k
      cases e with
      | wr u k2 v =>
          rw [show dataAfter d (Ev.wr u k2 v :: es)
                = dataAfter (fun k3 => if k3 = k2 then some v else d k3) es from rfl, ih]
          unfold mostRecentSet
          rw [List.foldl_cons]
          congr 1
          by_cases hk : k = k2
          · subst hk; simp
          · simp [hk, Ne.symm hk]
      | acq u =>
          rw [show dataAfter d (Ev.acq u :: es) = dataAfter d es from rfl, ih]
          unfold mostRecentSet
          rw [List.foldl_cons]
      | rel u =>
          rw [show dataAfter d (Ev.rel u :: es) = dataAfter d es from rfl, ih]
          unfold mostRecentSet
          rw [List.foldl_cons]
      | rd u k2 =>
          rw [show dataAfter d (Ev.rd u k2 :: es) = dataAfter d es from rfl, ih]
          unfold mostRecentSet
          rw [List.foldl_cons]

/-- C1: with the single-lock discipline of `DualCO2Logger`, a logger
snapshot is atomic.  For every well-locked interleaving containing a logger
critical section (thread `t` between its `acq` and matching `rel`, during
which `t` itself only reads), no `set` runs concurrently with the snapshot
(no write event occurs anywhere inside the critical section), the table is
unchanged throughout the section — so the snapshot never mixes pre- and
post-update values for a key — and each key's value at the snapshot instant
is the most recently set value for that key. -/
theorem C1_snapshot_atomic
    (pre mid post : List Ev) (t : Nat) (d : String → Option String)
    (hw : wellLockedFrom none (pre ++ Ev.acq t :: (mid ++ Ev.rel t :: post)) = true)
    (hrel : ∀ e ∈ mid, e ≠ Ev.rel t)
    (hlog : ∀ e ∈ mid, evThread e = t → isRd e = true) :
    (∀ e ∈ mid, isWr e = false) ∧
    (∀ m k, dataAfter d (pre ++ Ev.acq t :: mid.take m) k = dataAfter d pre k) ∧
    (∀ k, dataAfter d pre k = mostRecentSet d k pre) := by
  rw [wellLockedFrom_append pre none, Bool.and_eq_true] at hw
  obtain ⟨hwpre, hwrest⟩ := hw
  rw [wellLockedFrom, Bool.and_eq_true] at hwrest
  obtain ⟨hacq, hwrest2⟩ := hwrest
  have hnone : holderAfter none pre = none := by
    cases hh : holderAfter none pre with
    | none => rfl
    | some u => rw [hh] at hacq; simp [lockOk] at hacq
  have hmid : wellLockedFrom (some t) (mid ++ Ev.rel t :: post) = true := by
    have hl : lockAfter (holderAfter none pre) (Ev.acq t) = some t := by
      simp [lockAfter]
    rw [hl] at hwrest2
    exact hwrest2
  rw [wellLockedFrom_append mid (some t), Bool.and_eq_true] at hmid
  obtain ⟨hmidonly, _⟩ := hmid
  have hcrit := critical_section_events t mid hmidonly hrel
  have hnowr : ∀ e ∈ mid, isWr e = false := by
    intro e he
    cases e with
    | wr u k v =>
        have hth := (hcrit _ he).1
        have := hlog _ he hth
        simp [isRd] at this
    | acq u => rfl
    | rel u => rfl
    | rd u k => rfl
  refine ⟨hnowr, ?_, ?_⟩
  · intro m k
    rw [dataAfter_append pre d (Ev.acq t :: mid.take m)]
    have hstep : dataAfter (dataAfter d pre) (Ev.acq t :: mid.take m)
        = dataAfter (dataAfter d pre) (mid.take m) := rfl
    rw [hstep, dataAfter_no_wr (mid.take m) (dataAfter d pre)
      (fun e he => hnowr e (List.take_subset m mid he))]
  · intro k
    exact dataAfter_eq_mostRecentSet pre d k

/-- Witness for C1: a concrete well-locked trace — a reader's locked write
of `412.5` to the inlet key, then the logger's locked snapshot of both
keys. -/
theorem C1_snapshot_atomic_witness :
    wellLockedFrom none
        ([Ev.acq 1, Ev.wr 1 "CO2_inlet_ppm" "412.5", Ev.rel 1]
          ++ Ev.acq 0 :: ([Ev.rd 0 "CO2_inlet_ppm", Ev.rd 0 "CO2_outlet_ppm"]
            ++ Ev.rel 0 :: [])) = true ∧
    (∀ e ∈ [Ev.rd 0 "CO2_inlet_ppm", Ev.rd 0 "CO2_outlet_ppm"], e ≠ Ev.rel 0) ∧
    (∀ e ∈ [Ev.rd 0 "CO2_inlet_ppm", Ev.rd 0 "CO2_outlet_ppm"],
      evThread e = 0 → isRd e = true) ∧
    ((∀ e ∈ [Ev.rd 0 "CO2_inlet_ppm", Ev.rd 0 "CO2_outlet_ppm"], isWr e = false) ∧
     (∀ m k, dataAfter initData
          ([Ev.acq 1, Ev.wr 1 "CO2_inlet_ppm" "412.5", Ev.rel 1]
            ++ Ev.acq 0 :: List.take m [Ev.rd 0 "CO2_inlet_ppm", Ev.rd 0 "CO2_outlet_ppm"]) k
        = dataAfter initData [Ev.acq 1, Ev.wr 1 "CO2_inlet_ppm" "412.5", Ev.rel 1] k) ∧
     (∀ k, dataAfter initData [Ev.acq 1, Ev.wr 1 "CO2_inlet_ppm" "412.5", Ev.rel 1] k
        = mostRecentSet initData k [Ev.acq 1, Ev.wr 1 "CO2_inlet_ppm" "412.5", Ev.rel 1])) :=
  ⟨by decide, by decide, by decide,
   C1_snapshot_atomic
     [Ev.acq 1, Ev.wr 1 "CO2_inlet_ppm" "412.5", Ev.rel 1]
     [Ev.rd 0 "CO2_inlet_ppm", Ev.rd 0 "CO2_outlet_ppm"] [] 0 initData
     (by decide) (by decide) (by decide)⟩

/-- Publishes naming only other keys leave a key's slot untouched. -/
theorem runPublishes_other (steps : List (String × String)) :
    ∀ (d : String → Option String) (k : String),
      (∀ p ∈ steps, p.1 ≠ k) → runPublishes d steps k = d k := by
  induction steps with
  | nil => intro d k _; rfl
  | cons p ps ih =>
      intro d k h
      have hp : p.1 ≠ k := h p (List.mem_cons_self _ _)
      have hstep : runPublishes d (p :: ps) k
          = runPublishes (readerPublish d p.1 p.2) ps k := rfl
      rw [hstep, ih _ k (fun q hq => h q (List.mem_cons_of_mem _ hq))]
      unfold readerPublish
      by_cases ht : pyStrip p.2 = ""
      · simp [ht]
      · simp only [ht, if_false]
        rw [if_neg (fun hh : k = p.1 => hp hh.symm)]

/-- C2: a sensor that has never published a reading appears as a missing
value in the table and an empty CSV field in every log row.  For any
sequence of reader publishes none of which names key `k`, the table slot of
`k` is still `none` and the logger row's column for `k` (position `i + 1`
when `k` is the `i`-th configured sensor) is the empty field. -/
theorem C2_missing_field
    (keys : List String) (k ts : String) (steps : List (String × String)) (i : Nat)
    (hsteps : ∀ p ∈ steps, p.1 ≠ k)
    (hk : keys[i]? = some k) :
    runPublishes initData steps k = none ∧
    (loggerRow ts (runPublishes initData steps) keys)[i + 1]? = some "" := by
  have hnone : runPublishes initData steps k = none :=
    runPublishes_other steps initData k hsteps
  refine ⟨hnone, ?_⟩
  rw [show loggerRow ts (runPublishes initData steps) keys
      = ts :: keys.map (fun k2 => csvRender (runPublishes initData steps k2)) from rfl]
  rw [List.getElem?_cons_succ, List.getElem?_map, hk]
  simp [csvRender, hnone]

/-- Witness for C2: two configured sensors, the inlet publishes `412.5`, the
outlet never publishes; the outlet's column (index 2 of the row) is the
empty field. -/
theorem C2_missing_field_witness :
    (∀ p ∈ [("CO2_inlet_ppm", "412.5")], (p : String × String).1 ≠ "CO2_outlet_ppm") ∧
    ["CO2_inlet_ppm", "CO2_outlet_ppm"][1]? = some "CO2_outlet_ppm" ∧
    (runPublishes initData [("CO2_inlet_ppm", "412.5")] "CO2_outlet_ppm" = none ∧
     (loggerRow "2025-07-15 12:00:00.000"
        (runPublishes initData [("CO2_inlet_ppm", "412.5")])
        ["CO2_inlet_ppm", "CO2_outlet_ppm"])[2]? = some "") :=
  ⟨by decide, by decide,
   C2_missing_field ["CO2_inlet_ppm", "CO2_outlet_ppm"] "CO2_outlet_ppm"
     "2025-07-15 12:00:00.000" [("CO2_inlet_ppm", "412.5")] 1 (by decide) (by decide)⟩

/-- C10: within a session a sensor's slot is monotone.  Once the table
holds a non-empty reading for key `k`, any further sequence of reader
publishes leaves it holding some non-empty reading — publishes only write
non-empty stripped lines, and nothing clears a slot. -/
theorem C10_slot_monotone (steps : List (String × String)) :
    ∀ (d : String → Option String) (k v : String), d k = some v → v ≠ "" →
      ∃ v2, runPublishes d steps k = some v2 ∧ v2 ≠ "" := by
  induction steps with
  | nil => intro d k v hv hne; exact ⟨v, hv, hne⟩
  | cons p ps ih =>
      intro d k v hv hne
      have hstep : runPublishes d (p :: ps) k
          = runPublishes (readerPublish d p.1 p.2) ps k := rfl
      rw [hstep]
      by_cases ht : pyStrip p.2 = ""
      · exact ih _ k v (by simp [readerPublish, ht, hv]) hne
      · by_cases hk : k = p.1
        · exact ih _ k (pyStrip p.2) (by simp [readerPublish, ht, hk]) ht
        · exact ih _ k v (by simp [readerPublish, ht, hk, hv]) hne

/-- Witness for C10: the inlet slot holds `400`; after a whitespace-only
read (dropped), a fresh inlet reading and an outlet reading, the inlet slot
still holds a non-empty value. -/
theorem C10_slot_monotone_witness :
    (fun k => if k = "CO2_inlet_ppm" then some "400" else none) "CO2_inlet_ppm"
      = some "400" ∧
    "400" ≠ "" ∧
    (∃ v2, runPublishes
        (fun k => if k = "CO2_inlet_ppm" then some "400" else none)
        [("CO2_inlet_ppm", "  "), ("CO2_inlet_ppm", "401"), ("CO2_outlet_ppm", "5")]
        "CO2_inlet_ppm" = some v2 ∧ v2 ≠ "") :=
  ⟨by decide, by decide,
   C10_slot_monotone
     [("CO2_inlet_ppm", "  "), ("CO2_inlet_ppm", "401"), ("CO2_outlet_ppm", "5")]
     (fun k => if k = "CO2_inlet_ppm" then some "400" else none)
     "CO2_inlet_ppm" "400" (by decide) (by decide)⟩

/-- Counterexample to C3: `DualCO2Logger.start` has no session-running
check and no error path.  Calling `start` twice with the standard two-port
configuration and no intervening `stop` returns normally and leaves two
logger tasks and two reader tasks per sensor running — duplicate tasks are
launched and two sessions run at once. -/
theorem C3_counterexample :
    (start ["CO2_inlet_ppm", "CO2_outlet_ppm"]
        (start ["CO2_inlet_ppm", "CO2_outlet_ppm"] initCtrl)).alive
      = [TaskKind.logger, TaskKind.reader "CO2_inlet_ppm",
         TaskKind.reader "CO2_outlet_ppm", TaskKind.logger,
         TaskKind.reader "CO2_inlet_ppm", TaskKind.reader "CO2_outlet_ppm"] ∧
    (start ["CO2_inlet_ppm", "CO2_outlet_ppm"]
        (start ["CO2_inlet_ppm", "CO2_outlet_ppm"] initCtrl)).alive.count
      TaskKind.logger = 2 := by
  decide

/-- C3 (amended): `start()` performs no session-running check and raises no
error; a second `start()` without an intervening `stop()` launches a full
second set of tasks (duplicating the still-running first set) and replaces
the controller's thread list.  A single running session is enforced only by
the GUI layer: `_toggle` calls `stop` — never `start` — when its running
flag is set. -/
theorem C3_start_unguarded (ports : List String) (s : Ctrl) :
    (start ports (start ports s)).alive
      = (s.alive ++ sessionTasks ports) ++ sessionTasks ports ∧
    (start ports (start ports s)).threads = sessionTasks ports ∧
    toggle ports true s = (false, stop s) ∧
    toggle ports false s = (true, start ports s) :=
  ⟨rfl, rfl, rfl, rfl⟩

/-- Counterexample to C4: the `_logger` of `serial_communicaiton_GUI.py`
does parse sensor readings.  With the row callback set (as the GUI always
sets it) and readings `"abc"` and `"5"`, the row is written verbatim but
`float("abc")` then raises a ValueFormatError out of the logger. -/
theorem C4_counterexample :
    (loggerTickGUI true (some "abc") (some "5")).raised = true ∧
    (loggerTickGUI true (some "abc") (some "5")).row = ["abc", "5"] ∧
    pyFloat? "abc" = none := by
  refine ⟨by decide, by decide, ?_⟩
  decide

/-- C4 (amended): every logger writes each raw reading verbatim to the log
sink, and the write2file variant never parses; but the GUI variant's logger
core, once a row callback is set and both sensor values are non-empty,
parses both values as floats after writing the row — and raises exactly
when one of them is not parseable as a number. -/
theorem C4_gui_logger_parses (cb : Bool) (inlet outlet : Option String) :
    (loggerTickGUI cb inlet outlet).row = [inlet.getD "", outlet.getD ""] ∧
    ((loggerTickGUI cb inlet outlet).raised = true ↔
      (cb && pyTruthy inlet && pyTruthy outlet) = true ∧
        (pyFloat? (inlet.getD "") = none ∨ pyFloat? (outlet.getD "") = none)) ∧
    (∀ ts raw : String,
      w2fRows ts [raw] = if pyStrip raw = "" then [] else [[ts, pyStrip raw]]) := by
  refine ⟨?_, ?_, ?_⟩
  · unfold loggerTickGUI
    by_cases hc : (cb && pyTruthy inlet && pyTruthy outlet) = true
    · rw [if_pos hc]
      cases h1 : pyFloat? (inlet.getD "") with
      | none => simp
      | some x =>
          cases h2 : pyFloat? (outlet.getD "") with
          | none => simp
          | some y => simp
    · rw [if_neg hc]
  · unfold loggerTickGUI
    by_cases hc : (cb && pyTruthy inlet && pyTruthy outlet) = true
    · rw [if_pos hc]
      cases h1 : pyFloat? (inlet.getD "") with
      | none => simp [hc, h1]
      | some x =>
          cases h2 : pyFloat? (outlet.getD "") with
          | none => simp [hc, h1, h2]
          | some y => simp [hc, h1, h2]
    · rw [if_neg hc]
      simp [hc]
  · intro ts raw
    unfold w2fRows
    by_cases ht : pyStrip raw = "" <;> simp [List.filterMap_cons, ht]

/-- Counterexample to C5: the activation sequence of
`serial_communicaiton_write2file.py` does not write only the 30 wake bytes:
after the loop it writes one newline byte (`ser.write(b'\n')`), so its
write trace is 31 bytes, not `Z` repeated 30 times. -/
theorem C5_counterexample :
    writesOf activateSensorW2F = List.replicate 30 90 ++ [10] ∧
    writesOf activateSensorW2F ≠ List.replicate 30 90 := by
  decide

/-- C5 (amended): the GUI variants' activation writes exactly 30 wake bytes
(`Z` = byte 90), each followed by a 100 ms pause, with no response checking
and nothing else; the write2file variant writes the same 30 spaced wake
bytes but then one additional newline byte (with no pause after it), also
with no response checking. -/
theorem C5_activation :
    writesOf activateSensorGUI = List.replicate 30 90 ∧
    noReadsOn activateSensorGUI = true ∧
    writesSpaced 100 activateSensorGUI = true ∧
    writesOf activateSensorW2F = List.replicate 30 90 ++ [10] ∧
    noReadsOn activateSensorW2F = true ∧
    writesSpaced 100 activateSensorW2F = false := by
  decide

/-- Counterexample to C6: `start()` does not create a fresh reading table.
After a first session in which the inlet reader published `400` and which
was stopped, a second `start()` leaves the inlet slot holding `400` — not
absent as the claim requires. -/
theorem C6_counterexample :
    (start ["CO2_inlet_ppm", "CO2_outlet_ppm"]
        (stop (publish
          (start ["CO2_inlet_ppm", "CO2_outlet_ppm"] initCtrl)
          "CO2_inlet_ppm" "400"))).data "CO2_inlet_ppm" = some "400" ∧
    initData "CO2_inlet_ppm" = none := by
  decide

/-- C6 (amended): the reading table and the stop event are created once in
the controller's constructor, not per session.  `start()` clears the stop
event but reuses the table unchanged, so at the beginning of a later
session a sensor's slot still holds the previous session's last reading
until overwritten. -/
theorem C6_start_reuses_table (ports : List String) (s : Ctrl) :
    (start ports s).data = s.data ∧ (start ports s).stopSet = false :=
  ⟨rfl, rfl⟩

/-- Counterexample to C7: a reader task that dies of a transport error does
not close its channel.  With a schedule whose first `readline` raises, the
`_reader` loop of the simple GUI variant terminates by the propagating
exception and `ser.close()` never runs. -/
theorem C7_counterexample :
    (readerLoopGUI "CO2_inlet_ppm" [(false, ReadRes.err)] initData).exitKind
      = ExitKind.errExit ∧
    (readerLoopGUI "CO2_inlet_ppm" [(false, ReadRes.err)] initData).closedChan
      = false := by
  exact ⟨rfl, rfl⟩

/-- C7 (amended): a reader task closes its serial channel exactly when it
exits because it observed the stop signal; when it terminates because of a
fatal transport error during the loop, the channel is left open (the GUI
variant's exception propagates past `ser.close()`, and the two-sensor
variant breaks out of its loop and returns without closing). -/
theorem C7_close_iff_stop (name : String) (sched : List (Bool × ReadRes)) :
    ∀ (d : String → Option String),
      (readerLoopGUI name sched d).closedChan
        = ((readerLoopGUI name sched d).exitKind == ExitKind.stopExit) := by
  induction sched with
  | nil => intro d; rfl
  | cons p rest ih =>
      intro d
      obtain ⟨stopFlag, r⟩ := p
      by_cases hs : stopFlag = true
      · simp [readerLoopGUI, hs]
        decide
      · cases r with
        | err =>
            simp [readerLoopGUI, hs]
            decide
        | line s => simp [readerLoopGUI, hs, ih]

/-- C8: `stop()` is idempotent.  On a controller already in the stopped
state (stop event set, thread list empty, no live tasks) `stop` returns
normally leaving the state unchanged, and a repeated `stop` is always a
no-op after a first one. -/
theorem C8_stop_idempotent (s : Ctrl)
    (h1 : s.stopSet = true) (h2 : s.threads = []) (h3 : s.alive = []) :
    stop s = s ∧ stop (stop s) = stop s := by
  refine ⟨?_, rfl⟩
  cases s with
  | mk a b c d =>
      simp only [stop]
      simp at h1 h2 h3
      rw [h1, h2, h3]

/-- Witness for C8: the concrete stopped controller. -/
theorem C8_stop_idempotent_witness :
    (Ctrl.mk true [] initData []).stopSet = true ∧
    (Ctrl.mk true [] initData []).threads = [] ∧
    (Ctrl.mk true [] initData []).alive = [] ∧
    (stop (Ctrl.mk true [] initData []) = Ctrl.mk true [] initData [] ∧
     stop (stop (Ctrl.mk true [] initData [])) = stop (Ctrl.mk true [] initData [])) :=
  ⟨rfl, rfl, rfl, C8_stop_idempotent (Ctrl.mk true [] initData []) rfl rfl rfl⟩

/-- ASCII byte lists decode to themselves under the ignore handler. -/
theorem utf8DecodeIgnore_ascii :
    ∀ (bs : List Nat), (∀ b ∈ bs, b < 128) → utf8DecodeIgnore bs = bs := by
  intro bs
  induction bs with
  | nil => intro _; rw [utf8DecodeIgnore]
  | cons b rest ih =>
      intro h
      have hb : b < 128 := h b (List.mem_cons_self _ _)
      rw [utf8DecodeIgnore]
      rw [if_pos hb, ih (fun x hx => h x (List.mem_cons_of_mem _ hx))]

/-- Counterexample to C9: decoding with `errors="ignore"` drops malformed
byte sequences instead of replacing them.  The byte `0xFF` is invalid in
UTF-8, yet decoding `[0xFF, '4', '1', '2']` yields exactly `"412"` — the
decoded line contains no replacement character (U+FFFD) for the invalid
sequence. -/
theorem C9_counterexample :
    utf8DecodeIgnore [255, 52, 49, 50] = [52, 49, 50] ∧
    65533 ∉ utf8DecodeIgnore [255, 52, 49, 50] := by
  have h : utf8DecodeIgnore [255, 52, 49, 50] = [52, 49, 50] := by
    rw [utf8DecodeIgnore]
    norm_num
    rw [utf8DecodeIgnore]
    norm_num
    rw [utf8DecodeIgnore]
    norm_num
    rw [utf8DecodeIgnore]
    norm_num
    rw [utf8DecodeIgnore]
  exact ⟨h, by rw [h]; decide⟩

/-- C9 (amended): line decoding is best-effort and never a hard failure
(`utf8DecodeIgnore` is a total function), but an invalid byte sequence is
dropped, not replaced: prefixing an invalid byte `0xFF` to any ASCII line
decodes to the ASCII line itself, with no replacement character (U+FFFD)
anywhere in the output. -/
theorem C9_decode_drops (bs : List Nat) (h : ∀ b ∈ bs, b < 128) :
    utf8DecodeIgnore (255 :: bs) = bs ∧
    65533 ∉ utf8DecodeIgnore (255 :: bs) := by
  have h1 : utf8DecodeIgnore (255 :: bs) = utf8DecodeIgnore bs := by
    rw [utf8DecodeIgnore]
    norm_num
  have h2 := utf8DecodeIgnore_ascii bs h
  refine ⟨h1.trans h2, ?_⟩
  rw [h1, h2]
  intro hmem
  have := h _ hmem
  omega

/-- Witness for C9 (amended): the ASCII line `"412"` prefixed by the
invalid byte `0xFF`. -/
theorem C9_decode_drops_witness :
    (∀ b ∈ [52, 49, 50], b < 128) ∧
    (utf8DecodeIgnore (255 :: [52, 49, 50]) = [52, 49, 50] ∧
     65533 ∉ utf8DecodeIgnore (255 :: [52, 49, 50])) :=
  ⟨by decide, C9_decode_drops [52, 49, 50] (by decide)⟩

end SerialComm
